import Mathlib

/-
Verification of the syncplay room-synchronization core.

Server side (the Bun server source): room state rows, the updateRoomState
coalescing write, the websocket action handler, the set-video admin route,
and the auth handlers.  Client side (public/app.js): the reconciler state
machine with its echo-suppression window and drift correction.

Numbers are modelled as rationals; JavaScript values that can be NaN or
Infinity after a Number coercion are modelled by the JsNum type below.
Timestamps are natural numbers on the server (the ISO string produced by
nowIso is order-isomorphic to the clock value) and rationals on the client
(milliseconds from Date.now plus division by 1000).
-/

/-- Result of a JavaScript Number coercion: a finite rational, or a
non-finite value such as NaN or Infinity (for example from a non-numeric
string). -/
inductive JsNum where
  | val (q : ℚ)
  | nonfinite
deriving DecidableEq

/-- Mirrors the source expression Number(field ?? d) on an optional payload
field: an absent field is replaced by the finite default d. -/
def jsNumOrDefault (field : Option JsNum) (d : ℚ) : JsNum :=
  match field with
  | none => JsNum.val d
  | some x => x

/-- Mirrors the source expression Number.isFinite(x) ? x : undefined. -/
def finiteOrUndefined : JsNum → Option ℚ
  | JsNum.val q => some q
  | JsNum.nonfinite => none

/-- One row of the room_state table.  The paused column is an INTEGER flag
exactly as in the schema; updated_at is the clock value stamped by nowIso. -/
structure RoomState where
  room_id : String
  video_path : Option String
  position : ℚ
  paused : Nat
  playback_rate : ℚ
  updated_at : Nat
deriving DecidableEq

/-- The partial update passed to updateRoomState.  The video_path slot is a
JavaScript value that can be undefined (outer none), null (some none) or a
string; the numeric slots are number-or-undefined as in the handlers. -/
structure RoomUpdates where
  video_path : Option (Option String)
  position : Option ℚ
  paused : Option Nat
  playback_rate : Option ℚ
deriving DecidableEq

/-- JavaScript nullish coalescing on the video_path update slot: both an
absent field (undefined) and an explicit null fall through to the current
value, because the ?? operator treats null and undefined alike. -/
def nullishOr (update : Option (Option String)) (current : Option String) : Option String :=
  match update with
  | none => current
  | some none => current
  | some (some s) => some s

/-- The updateRoomState function of the server: coalesce each provided field
over the current row with the ?? operator, stamp updated_at with the current
clock, and return the full new row. -/
def updateRoomState (now : Nat) (current : RoomState) (updates : RoomUpdates) : RoomState :=
  { room_id := current.room_id
    video_path := nullishOr updates.video_path current.video_path
    position := updates.position.getD current.position
    paused := updates.paused.getD current.paused
    playback_rate := updates.playback_rate.getD current.playback_rate
    updated_at := now }

/-- The default row inserted by getRoomState on first access of a room. -/
def defaultRoomState (roomId : String) (now : Nat) : RoomState :=
  { room_id := roomId
    video_path := none
    position := 0
    paused := 1
    playback_rate := 1
    updated_at := now }

/-- The data object of a server-to-client state message, as serialized by
the websocket open handler, the action handler and the set-video route. -/
structure StateMsg where
  roomId : String
  videoPath : Option String
  position : ℚ
  paused : Bool
  playbackRate : ℚ
  updatedAt : Nat
  serverTime : Nat
deriving DecidableEq

/-- Build the broadcast payload from a room state row, converting the
INTEGER paused flag to a boolean as the source does with paused === 1. -/
def stateMsgOf (s : RoomState) (serverTime : Nat) : StateMsg :=
  { roomId := s.room_id
    videoPath := s.video_path
    position := s.position
    paused := s.paused == 1
    playbackRate := s.playback_rate
    updatedAt := s.updated_at
    serverTime := serverTime }

/-- The broadcastRoom function: send the same payload to every socket
registered for the room.  Sockets are identified by numbers; the result
lists each individual send. -/
def broadcastRoom (sockets : List Nat) (msg : StateMsg) : List (Nat × StateMsg) :=
  sockets.map fun sock => (sock, msg)

/-- An inbound action message, after JSON parsing: the action kind string
and the two optional numeric payload fields. -/
structure ActionMsg where
  action : String
  position : Option JsNum
  playbackRate : Option JsNum
deriving DecidableEq

/-- The whitelist of accepted action kinds in the websocket handler. -/
def validActionKinds : List String := ["play", "pause", "seek", "rate", "sync"]

/-- The paused slot of the update computed by the handler: pause maps to 1,
play maps to 0, every other kind leaves the flag undefined. -/
def pausedUpdateFor (action : String) : Option Nat :=
  if action = "pause" then some 1 else if action = "play" then some 0 else none

/-- The body of the websocket message handler for an action payload: coerce
the numeric fields with their defaults, and when the kind is accepted apply
updateRoomState with finite fields only and produce a broadcast payload.
Unknown kinds fall through with no state change and no broadcast; the
handler is total, so no error is surfaced and the connection stays open. -/
def handleAction (now : Nat) (s : RoomState) (msg : ActionMsg) :
    RoomState × Option StateMsg :=
  let position := jsNumOrDefault msg.position 0
  let playbackRate := jsNumOrDefault msg.playbackRate 1
  if msg.action ∈ validActionKinds then
    let next := updateRoomState now s
      { video_path := none
        position := finiteOrUndefined position
        paused := pausedUpdateFor msg.action
        playback_rate := finiteOrUndefined playbackRate }
    (next, some (stateMsgOf next now))
  else (s, none)

/-- The websocket message handler together with the fan-out: when
handleAction produces a payload it is broadcast to every socket of the
room, otherwise no send happens at all. -/
def wsActionMessage (now : Nat) (sockets : List Nat) (s : RoomState) (msg : ActionMsg) :
    RoomState × List (Nat × StateMsg) :=
  match handleAction now s msg with
  | (next, some sm) => (next, broadcastRoom sockets sm)
  | (next, none) => (next, [])

/-- The set-video admin route body: videoPath is body.videoPath ?? null, so
the argument here is null (none) or a string; the route updates the room
with that video_path, position 0 and paused 1, then broadcasts the full
resulting row to every socket of the room. -/
def setVideoHandler (now : Nat) (sockets : List Nat) (s : RoomState) (videoPath : Option String) :
    RoomState × List (Nat × StateMsg) :=
  let next := updateRoomState now s
    { video_path := some videoPath
      position := some 0
      paused := some 1
      playback_rate := none }
  (next, broadcastRoom sockets (stateMsgOf next now))

/-- Apply a list of timestamped action messages in order to a room row,
collecting the successive rows the store produces. -/
def runActions (s : RoomState) : List (Nat × ActionMsg) → List RoomState
  | [] => []
  | (t, m) :: rest =>
    let s2 := (handleAction t s m).1
    s2 :: runActions s2 rest

/-- The client reconciler state variables from public/app.js: the
applyingRemote flag, the ignoreEventsUntil deadline in milliseconds, and
the currently loaded video. -/
structure ReconcilerState where
  applyingRemote : Bool
  ignoreEventsUntil : ℚ
  currentVideo : Option String
deriving DecidableEq

/-- The observable playback fields of the local media element. -/
structure MediaElement where
  currentTime : ℚ
  paused : Bool
  playbackRate : ℚ
deriving DecidableEq

/-- The data of an inbound state message as read by applyState. -/
structure StateData where
  videoPath : Option String
  position : ℚ
  paused : Bool
  playbackRate : ℚ
  serverTime : ℚ
deriving DecidableEq

/-- The fixed drift tolerance of 0.4 seconds used by applyState. -/
def driftTolerance : ℚ := 4/10

/-- The target position computed by applyState: delta is
max(0, (now - serverTime) / 1000) with the JavaScript falsy fallback of
serverTime to now, and when playing the target extrapolates position by
delta times the playback rate; when paused the target is position. -/
def targetPosition (now serverTime position playbackRate : ℚ) (paused : Bool) : ℚ :=
  let st := if serverTime = 0 then now else serverTime
  let delta := max 0 ((now - st) / 1000)
  if paused then position else position + delta * playbackRate

/-- The applyState function of the reconciler, restricted to its playback
effects: set the playback rate with the falsy fallback to 1, and when a
video is selected seek to the target position if it differs from the local
position by more than the drift tolerance and set the paused flag; finally
leave applyingRemote false and set ignoreEventsUntil to now + 600. -/
def applyState (now : ℚ) (r : ReconcilerState) (m : MediaElement) (d : StateData) :
    ReconcilerState × MediaElement :=
  let rate := if d.playbackRate = 0 then 1 else d.playbackRate
  let m1 : MediaElement := { m with playbackRate := rate }
  let m2 :=
    if d.videoPath.isSome then
      let target := targetPosition now d.serverTime d.position rate d.paused
      let seeked :=
        if driftTolerance < |m1.currentTime - target| then { m1 with currentTime := target }
        else m1
      { seeked with paused := d.paused }
    else m1
  ({ applyingRemote := false, ignoreEventsUntil := now + 600, currentVideo := d.videoPath }, m2)

/-- The pause event listener of the video element: the event is swallowed
while applyingRemote is set, while now is before the ignoreEventsUntil
deadline, or while the element is seeking; otherwise it emits an outbound
pause action. -/
def pauseListener (r : ReconcilerState) (now : ℚ) (seeking : Bool) : Option String :=
  if r.applyingRemote then none
  else if now < r.ignoreEventsUntil then none
  else if seeking then none
  else some "pause"

/-- One row of the users table: the unique email and the INTEGER admin
flag. -/
structure UserRow where
  email : String
  is_admin : Nat
deriving DecidableEq

/-- The UPDATE statement setting the admin flag of the user with the given
email (emails are unique, so the WHERE id clause of the source selects
exactly the rows with this email). -/
def setAdminFlag (users : List UserRow) (email : String) (flag : Nat) : List UserRow :=
  users.map fun u => if u.email = email then { u with is_admin := flag } else u

/-- The upsertUser function: INSERT with ON CONFLICT(email) DO UPDATE SET
is_admin, so an existing row gets the new flag and a missing row is
appended. -/
def upsertUser (users : List UserRow) (email : String) (isAdmin : Bool) : List UserRow :=
  let flag := if isAdmin then 1 else 0
  if users.any (fun u => u.email == email) then setAdminFlag users email flag
  else users ++ [{ email := email, is_admin := flag }]

/-- The login route body on the users table, for an already normalized
email: reject an empty email or an email with no user row, and otherwise
run UPDATE users SET is_admin = 1 for that user and return the updated
table (session insertion does not touch the users table). -/
def loginHandler (users : List UserRow) (email : String) : Option (List UserRow) :=
  if email = "" then none
  else
    match users.find? (fun u => u.email == email) with
    | none => none
    | some _ => some (setAdminFlag users email 1)

/-- The isAdmin flag a session for the given email reads through the
getSession join: the is_admin column of the user row compared to 1. -/
def sessionIsAdmin (users : List UserRow) (email : String) : Option Bool :=
  (users.find? fun u => u.email == email).map fun u => u.is_admin == 1

/-- Outcome of the auth guards. -/
inductive AuthResult where
  | ok (isAdmin : Bool)
  | unauthorized
  | forbidden
deriving DecidableEq

/-- requireAuth: fail with 401 when there is no session. -/
def requireAuthR (session : Option Bool) : AuthResult :=
  match session with
  | none => AuthResult.unauthorized
  | some a => AuthResult.ok a

/-- requireAdmin: requireAuth and then fail with 403 unless the session has
the admin flag. -/
def requireAdminR (session : Option Bool) : AuthResult :=
  match requireAuthR session with
  | AuthResult.ok a => if a then AuthResult.ok a else AuthResult.forbidden
  | r => r

/-- Claim C2: for every room and prior state, the set-video route with a
non-null video path yields a row with that path, position 0 and paused 1,
regardless of the prior values, and the resulting full row is sent to every
socket currently in the room. -/
theorem claim2_set_video_resets (now : Nat) (sockets : List Nat) (s : RoomState)
    (path : String) :
    (setVideoHandler now sockets s (some path)).1.video_path = some path ∧
    (setVideoHandler now sockets s (some path)).1.position = 0 ∧
    (setVideoHandler now sockets s (some path)).1.paused = 1 ∧
    (setVideoHandler now sockets s (some path)).2 =
      sockets.map (fun sock => (sock, stateMsgOf (setVideoHandler now sockets s (some path)).1 now)) :=
  ⟨rfl, rfl, rfl, rfl⟩

/-- Claim C3: an action message whose kind is not in the whitelist leaves
the room row unchanged and produces no send to any socket; the handler
returns normally, so no error is surfaced. -/
theorem claim3_unknown_kind_noop (now : Nat) (sockets : List Nat) (s : RoomState)
    (msg : ActionMsg) (h : msg.action ∉ validActionKinds) :
    wsActionMessage now sockets s msg = (s, []) := by
  unfold wsActionMessage handleAction
  rw [if_neg h]

/-- Witness for claim C3 at the kind foo on a room with two sockets. -/
theorem claim3_witness :
    ("foo" ∉ validActionKinds) ∧
      wsActionMessage 7 [1, 2] (defaultRoomState "main" 0)
        { action := "foo", position := none, playbackRate := none } =
        (defaultRoomState "main" 0, []) :=
  ⟨by decide, claim3_unknown_kind_noop 7 [1, 2] (defaultRoomState "main" 0)
    { action := "foo", position := none, playbackRate := none } (by decide)⟩


/-- Claim C4: in an accepted action a non-finite numeric field is dropped
while the rest of the action still applies: with a non-finite position the
prior position is kept but the finite rate and the kind-implied paused
change take effect, and symmetrically for a non-finite rate; in both cases
a broadcast payload is still produced. -/
theorem claim4_nonfinite_field_dropped (now : Nat) (s : RoomState) (kind : String)
    (p r : ℚ) (h : kind ∈ validActionKinds) :
    (handleAction now s (ActionMsg.mk kind (some JsNum.nonfinite) (some (JsNum.val r)))).1.position = s.position ∧
    (handleAction now s (ActionMsg.mk kind (some JsNum.nonfinite) (some (JsNum.val r)))).1.playback_rate = r ∧
    (handleAction now s (ActionMsg.mk kind (some JsNum.nonfinite) (some (JsNum.val r)))).1.paused = (pausedUpdateFor kind).getD s.paused ∧
    (handleAction now s (ActionMsg.mk kind (some JsNum.nonfinite) (some (JsNum.val r)))).2.isSome = true ∧
    (handleAction now s (ActionMsg.mk kind (some (JsNum.val p)) (some JsNum.nonfinite))).1.position = p ∧
    (handleAction now s (ActionMsg.mk kind (some (JsNum.val p)) (some JsNum.nonfinite))).1.playback_rate = s.playback_rate ∧
    (handleAction now s (ActionMsg.mk kind (some (JsNum.val p)) (some JsNum.nonfinite))).1.paused = (pausedUpdateFor kind).getD s.paused ∧
    (handleAction now s (ActionMsg.mk kind (some (JsNum.val p)) (some JsNum.nonfinite))).2.isSome = true := by
  unfold handleAction
  rw [if_pos h, if_pos h]
  exact ⟨rfl, rfl, rfl, rfl, rfl, rfl, rfl, rfl⟩

/-- Witness for claim C4 at the kind pause with concrete fields. -/
theorem claim4_witness :
    ("pause" ∈ validActionKinds) ∧
    ((handleAction 3 (defaultRoomState "main" 0) (ActionMsg.mk "pause" (some JsNum.nonfinite) (some (JsNum.val 2)))).1.position = (defaultRoomState "main" 0).position ∧
    (handleAction 3 (defaultRoomState "main" 0) (ActionMsg.mk "pause" (some JsNum.nonfinite) (some (JsNum.val 2)))).1.playback_rate = 2 ∧
    (handleAction 3 (defaultRoomState "main" 0) (ActionMsg.mk "pause" (some JsNum.nonfinite) (some (JsNum.val 2)))).1.paused = (pausedUpdateFor "pause").getD (defaultRoomState "main" 0).paused ∧
    (handleAction 3 (defaultRoomState "main" 0) (ActionMsg.mk "pause" (some JsNum.nonfinite) (some (JsNum.val 2)))).2.isSome = true ∧
    (handleAction 3 (defaultRoomState "main" 0) (ActionMsg.mk "pause" (some (JsNum.val 5)) (some JsNum.nonfinite))).1.position = 5 ∧
    (handleAction 3 (defaultRoomState "main" 0) (ActionMsg.mk "pause" (some (JsNum.val 5)) (some JsNum.nonfinite))).1.playback_rate = (defaultRoomState "main" 0).playback_rate ∧
    (handleAction 3 (defaultRoomState "main" 0) (ActionMsg.mk "pause" (some (JsNum.val 5)) (some JsNum.nonfinite))).1.paused = (pausedUpdateFor "pause").getD (defaultRoomState "main" 0).paused ∧
    (handleAction 3 (defaultRoomState "main" 0) (ActionMsg.mk "pause" (some (JsNum.val 5)) (some JsNum.nonfinite))).2.isSome = true) :=
  ⟨by decide, claim4_nonfinite_field_dropped 3 (defaultRoomState "main" 0) "pause" 5 2 (by decide)⟩

/-- Claim C5 as stated is false: an accepted action that omits the position
field does not keep the prior position, because the handler coerces the
missing field with the default 0, which is finite and therefore applied.
On a room at position 50 a sync action without a position field moves the
row to position 0. -/
theorem claim5_counterexample :
    (handleAction 9 (RoomState.mk "main" (some "m.mp4") 50 0 1 4)
      (ActionMsg.mk "sync" none (some (JsNum.val 1)))).1.position = 0 ∧
    ¬ ((handleAction 9 (RoomState.mk "main" (some "m.mp4") 50 0 1 4)
      (ActionMsg.mk "sync" none (some (JsNum.val 1)))).1.position = (50 : ℚ)) := by
  constructor
  · rfl
  · decide

/-- Claim C5 amended: every accepted action that omits the position field,
whatever its playbackRate payload, is treated as carrying position 0, which
overwrites the prior position; and every accepted action that omits the
playbackRate field, whatever its position payload, is treated as carrying
rate 1, which overwrites the prior rate. -/
theorem claim5_amended_omitted_defaults (now : Nat) (s : RoomState) (kind : String)
    (pos pr : Option JsNum) (h : kind ∈ validActionKinds) :
    (handleAction now s (ActionMsg.mk kind none pr)).1.position = 0 ∧
    (handleAction now s (ActionMsg.mk kind pos none)).1.playback_rate = 1 := by
  unfold handleAction
  rw [if_pos h, if_pos h]
  exact ⟨rfl, rfl⟩

/-- Witness for the amended claim C5 at the kind sync on a room away from
the defaults, with the respective other numeric field present and finite. -/
theorem claim5_amended_witness :
    ("sync" ∈ validActionKinds) ∧
    ((handleAction 9 (RoomState.mk "main" (some "m.mp4") 50 0 2 4)
      (ActionMsg.mk "sync" none (some (JsNum.val 3)))).1.position = 0 ∧
    (handleAction 9 (RoomState.mk "main" (some "m.mp4") 50 0 2 4)
      (ActionMsg.mk "sync" (some (JsNum.val 7)) none)).1.playback_rate = 1) :=
  ⟨by decide, claim5_amended_omitted_defaults 9
    (RoomState.mk "main" (some "m.mp4") 50 0 2 4) "sync"
    (some (JsNum.val 7)) (some (JsNum.val 3)) (by decide)⟩

/-- Claim C6 names the intended behavior, but the code keeps the previous
video: the set-video route passes video_path null through the ?? operator
of updateRoomState, and null is nullish, so the prior path survives.  On a
room currently at movie.mp4 a set-video call with a null path leaves
video_path equal to movie.mp4 instead of clearing it. -/
theorem claim6_null_video_kept :
    (setVideoHandler 1000 [4]
      (RoomState.mk "main" (some "movie.mp4") 50 0 1 5) none).1.video_path =
      some "movie.mp4" ∧
    (setVideoHandler 1000 [4]
      (RoomState.mk "main" (some "movie.mp4") 50 0 1 5) none).1.video_path ≠ none := by
  constructor
  · rfl
  · decide

/-- Claim C8: a sync action carrying exactly the current position and the
current playback rate (both finite) produces a row equal to the previous
one in every field except updated_at, which is restamped. -/
theorem claim8_sync_idempotent (now : Nat) (s : RoomState) :
    (handleAction now s (ActionMsg.mk "sync" (some (JsNum.val s.position))
      (some (JsNum.val s.playback_rate)))).1 = { s with updated_at := now } := by
  unfold handleAction
  rw [if_pos (by decide : ("sync" : String) ∈ validActionKinds)]
  rfl

/-- Helper: an action either restamps updated_at with the clock value or
leaves the row untouched. -/
theorem handleAction_updated_at_cases (now : Nat) (s : RoomState) (m : ActionMsg) :
    (handleAction now s m).1.updated_at = now ∨ (handleAction now s m).1 = s := by
  unfold handleAction
  by_cases h : m.action ∈ validActionKinds
  · rw [if_pos h]; exact Or.inl rfl
  · rw [if_neg h]; exact Or.inr rfl

/-- Claim C7: along any sequence of timestamped actions applied to a room
row, if the clock values are non-decreasing (starting from the stamp of the
initial row) then the updated_at values of the successive rows produced by
the store are non-decreasing. -/
theorem claim7_updated_at_monotone (s : RoomState) (steps : List (Nat × ActionMsg))
    (h : List.Chain' (· ≤ ·) (s.updated_at :: steps.map Prod.fst)) :
    List.Chain' (· ≤ ·) ((s :: runActions s steps).map RoomState.updated_at) := by
  induction steps generalizing s with
  | nil => simp [runActions]
  | cons step rest ih =>
    obtain ⟨t, m⟩ := step
    rw [List.map_cons, List.chain'_cons] at h
    obtain ⟨h1, h2⟩ := h
    have hrun : runActions s ((t, m) :: rest) =
        (handleAction t s m).1 :: runActions (handleAction t s m).1 rest := rfl
    rw [hrun, List.map_cons, List.map_cons, List.chain'_cons]
    have htail : List.Chain' (· ≤ ·)
        (((handleAction t s m).1 :: runActions (handleAction t s m).1 rest).map
          RoomState.updated_at) := by
      apply ih
      rcases handleAction_updated_at_cases t s m with hc | hc
      · rw [hc]; exact h2
      · rw [hc]
        have h2' := List.chain'_cons'.mp h2
        exact List.chain'_cons'.mpr ⟨fun b hb => le_trans h1 (h2'.1 b hb), h2'.2⟩
    refine ⟨?_, ?_⟩
    · rcases handleAction_updated_at_cases t s m with hc | hc
      · rw [hc]; exact h1
      · rw [hc]
    · rw [List.map_cons] at htail
      exact htail

/-- Witness for claim C7: a fresh room followed by a play and a pause at
increasing clock values. -/
theorem claim7_witness :
    List.Chain' (· ≤ ·) ((defaultRoomState "main" 0).updated_at ::
      ([((1 : Nat), ActionMsg.mk "play" (some (JsNum.val 3)) none),
        ((2 : Nat), ActionMsg.mk "pause" (some (JsNum.val 4)) none)].map Prod.fst)) ∧
    List.Chain' (· ≤ ·) ((defaultRoomState "main" 0 ::
      runActions (defaultRoomState "main" 0)
        [((1 : Nat), ActionMsg.mk "play" (some (JsNum.val 3)) none),
         ((2 : Nat), ActionMsg.mk "pause" (some (JsNum.val 4)) none)]).map
      RoomState.updated_at) :=
  ⟨by norm_num [List.chain'_cons, defaultRoomState],
    claim7_updated_at_monotone (defaultRoomState "main" 0)
    [((1 : Nat), ActionMsg.mk "play" (some (JsNum.val 3)) none),
     ((2 : Nat), ActionMsg.mk "pause" (some (JsNum.val 4)) none)]
    (by norm_num [List.chain'_cons, defaultRoomState])⟩

/-- Claim C1: applying a remote state message with paused true and a
selected video programmatically pauses the media element and sets the
ignore deadline to now + 600; a local pause event fired while
applyingRemote is set, or while the current time is below the deadline, is
swallowed, so no outbound pause action is emitted within the 600
millisecond window following the application. -/
theorem claim1_echo_suppression (t0 t : ℚ) (r r2 : ReconcilerState) (m : MediaElement)
    (d : StateData) (v : String) (seeking : Bool)
    (hv : d.videoPath = some v) (hp : d.paused = true) (ht : t < t0 + 600) :
    (applyState t0 r m d).2.paused = true ∧
    (applyState t0 r m d).1.ignoreEventsUntil = t0 + 600 ∧
    pauseListener (applyState t0 r m d).1 t seeking = none ∧
    (r2.applyingRemote = true → pauseListener r2 t seeking = none) := by
  refine ⟨?_, rfl, ?_, ?_⟩
  · simp [applyState, hv, hp]
  · simp [pauseListener, applyState, ht]
  · intro h
    simp [pauseListener, h]

/-- Witness for claim C1 at concrete times and a concrete message. -/
theorem claim1_witness :
    (StateData.mk (some "v.mp4") 10 true 1 0).videoPath = some "v.mp4" ∧
    (StateData.mk (some "v.mp4") 10 true 1 0).paused = true ∧
    ((100 : ℚ) < 0 + 600) ∧
    ((applyState 0 (ReconcilerState.mk false 0 none) (MediaElement.mk 5 false 1)
        (StateData.mk (some "v.mp4") 10 true 1 0)).2.paused = true ∧
      (applyState 0 (ReconcilerState.mk false 0 none) (MediaElement.mk 5 false 1)
        (StateData.mk (some "v.mp4") 10 true 1 0)).1.ignoreEventsUntil = 0 + 600 ∧
      pauseListener (applyState 0 (ReconcilerState.mk false 0 none) (MediaElement.mk 5 false 1)
        (StateData.mk (some "v.mp4") 10 true 1 0)).1 100 false = none ∧
      ((ReconcilerState.mk true 0 none).applyingRemote = true →
        pauseListener (ReconcilerState.mk true 0 none) 100 false = none)) :=
  ⟨rfl, rfl, by norm_num,
    claim1_echo_suppression 0 100 (ReconcilerState.mk false 0 none)
      (ReconcilerState.mk true 0 none) (MediaElement.mk 5 false 1)
      (StateData.mk (some "v.mp4") 10 true 1 0) "v.mp4" false rfl rfl (by norm_num)⟩

/-- Helper: with a selected video, the local position after applyState is
the target position when the difference exceeds the drift tolerance and the
unchanged local position otherwise. -/
theorem applyState_currentTime (now : ℚ) (r : ReconcilerState) (m : MediaElement)
    (d : StateData) (v : String) (hv : d.videoPath = some v) (hr : d.playbackRate ≠ 0) :
    (applyState now r m d).2.currentTime =
      if driftTolerance <
          |m.currentTime - targetPosition now d.serverTime d.position d.playbackRate d.paused|
        then targetPosition now d.serverTime d.position d.playbackRate d.paused
        else m.currentTime := by
  simp only [applyState, hv, if_neg hr, Option.isSome_some, if_true]
  rw [apply_ite MediaElement.currentTime]

/-- Claim C9: for a playing state message at position 10, rate 1 and a
server timestamp 2000 milliseconds before the local clock, the computed
target position is 12; a receiver whose local position is 11.9 performs no
seek, a receiver at 9 seeks to 12, and for a paused message the target is
the position exactly. -/
theorem claim9_drift_correction (now : ℚ) (r : ReconcilerState) (hst : now - 2000 ≠ 0) :
    targetPosition now (now - 2000) 10 1 false = 12 ∧
    (applyState now r (MediaElement.mk (119/10) false 1)
      (StateData.mk (some "v.mp4") 10 false 1 (now - 2000))).2.currentTime = 119/10 ∧
    (applyState now r (MediaElement.mk 9 false 1)
      (StateData.mk (some "v.mp4") 10 false 1 (now - 2000))).2.currentTime = 12 ∧
    (∀ pos st rate : ℚ, targetPosition now st pos rate true = pos) := by
  have htarget : targetPosition now (now - 2000) 10 1 false = 12 := by
    simp only [targetPosition, if_neg hst]
    have h2 : now - (now - 2000) = 2000 := by ring
    rw [h2]
    norm_num
  refine ⟨htarget, ?_, ?_, ?_⟩
  · rw [applyState_currentTime now r _ _ "v.mp4" rfl (by norm_num)]
    simp only [htarget]
    rw [if_neg]
    rw [driftTolerance]
    rw [show |(119 : ℚ)/10 - 12| = 1/10 by rw [abs_of_neg] <;> norm_num]
    norm_num
  · rw [applyState_currentTime now r _ _ "v.mp4" rfl (by norm_num)]
    simp only [htarget]
    rw [if_pos]
    rw [driftTolerance]
    rw [show |(9 : ℚ) - 12| = 3 by rw [abs_of_neg] <;> norm_num]
    norm_num
  · intro pos st rate
    simp [targetPosition]

/-- Witness for claim C9 at the local clock value 5000. -/
theorem claim9_witness :
    ((5000 : ℚ) - 2000 ≠ 0) ∧
    (targetPosition 5000 (5000 - 2000) 10 1 false = 12 ∧
    (applyState 5000 (ReconcilerState.mk false 0 none) (MediaElement.mk (119/10) false 1)
      (StateData.mk (some "v.mp4") 10 false 1 (5000 - 2000))).2.currentTime = 119/10 ∧
    (applyState 5000 (ReconcilerState.mk false 0 none) (MediaElement.mk 9 false 1)
      (StateData.mk (some "v.mp4") 10 false 1 (5000 - 2000))).2.currentTime = 12 ∧
    (∀ pos st rate : ℚ, targetPosition 5000 st pos rate true = pos)) :=
  ⟨by norm_num, claim9_drift_correction 5000 (ReconcilerState.mk false 0 none) (by norm_num)⟩

/-- Helper: find? skips a prefix in which no element satisfies the
predicate. -/
theorem find?_append_of_none {α : Type} {p : α → Bool} {l1 l2 : List α}
    (h : l1.find? p = none) : (l1 ++ l2).find? p = l2.find? p := by
  induction l1 with
  | nil => rfl
  | cons a l ih =>
    by_cases hpa : p a = true
    · rw [List.find?_cons_of_pos _ hpa] at h
      exact absurd h (by simp)
    · rw [List.find?_cons_of_neg _ (by simp [hpa])] at h
      rw [List.cons_append, List.find?_cons_of_neg _ (by simp [hpa])]
      exact ih h

/-- Helper: after setAdminFlag, the row found for the email carries the new
flag, provided a row for the email existed. -/
theorem find?_setAdminFlag (users : List UserRow) (email : String) (flag : Nat)
    (h : (users.find? fun u => u.email == email).isSome = true) :
    ∃ u, (setAdminFlag users email flag).find? (fun u => u.email == email) = some u ∧
      u.is_admin = flag := by
  induction users with
  | nil => simp at h
  | cons a l ih =>
    by_cases ha : a.email = email
    · subst ha
      refine ⟨⟨a.email, flag⟩, ?_, rfl⟩
      unfold setAdminFlag
      rw [List.map_cons, if_pos rfl, List.find?_cons_of_pos _ (by simp)]
    · rw [List.find?_cons_of_neg _ (by simp [ha])] at h
      obtain ⟨u, hu, hadm⟩ := ih h
      refine ⟨u, ?_, hadm⟩
      unfold setAdminFlag
      rw [List.map_cons, if_neg ha, List.find?_cons_of_neg _ (by simp [ha])]
      exact hu

/-- Helper: after upsertUser with the admin flag, the row found for the
email exists and carries the flag 1, whether the row was updated or freshly
inserted. -/
theorem find?_upsertUser_admin (users : List UserRow) (email : String) :
    ∃ u, (upsertUser users email true).find? (fun u => u.email == email) = some u ∧
      u.is_admin = 1 := by
  have hunfold : upsertUser users email true =
      if users.any (fun u => u.email == email) then setAdminFlag users email 1
      else users ++ [⟨email, 1⟩] := rfl
  rw [hunfold]
  by_cases h : users.any (fun u => u.email == email) = true
  · rw [if_pos h]
    apply find?_setAdminFlag
    obtain ⟨x, hx, hpx⟩ := List.any_eq_true.mp h
    rw [List.find?_isSome]
    exact ⟨x, hx, hpx⟩
  · rw [if_neg h]
    refine ⟨⟨email, 1⟩, ?_, rfl⟩
    have hnone : users.find? (fun u => u.email == email) = none := by
      rw [List.find?_eq_none]
      intro x hx hpx
      exact h (List.any_eq_true.mpr ⟨x, hx, hpx⟩)
    rw [find?_append_of_none hnone, List.find?_cons_of_pos _ (by simp)]

/-- Claim C10: every successful login unconditionally sets the admin flag
of the user to 1, every successful invite acceptance upserts the user with
the admin flag, and a session for such a user therefore reads isAdmin true
and passes the requireAdmin guard, so the distinct privilege tier is vacuous
in practice. -/
theorem claim10_all_users_admin (users us1 : List UserRow) (email : String)
    (hlogin : loginHandler users email = some us1) :
    sessionIsAdmin us1 email = some true ∧
    requireAdminR (sessionIsAdmin us1 email) = AuthResult.ok true ∧
    (∀ users2 : List UserRow,
      sessionIsAdmin (upsertUser users2 email true) email = some true ∧
      requireAdminR (sessionIsAdmin (upsertUser users2 email true) email) =
        AuthResult.ok true) := by
  unfold loginHandler at hlogin
  by_cases he : email = ""
  · rw [if_pos he] at hlogin
    exact absurd hlogin (by simp)
  · rw [if_neg he] at hlogin
    cases hf : users.find? (fun u => u.email == email) with
    | none =>
      rw [hf] at hlogin
      exact absurd hlogin (by simp)
    | some u0 =>
      rw [hf] at hlogin
      have hus : us1 = setAdminFlag users email 1 := by
        injection hlogin with h2
        exact h2.symm
      subst hus
      obtain ⟨u, hu, hadm⟩ := find?_setAdminFlag users email 1 (by rw [hf]; rfl)
      have hsess : sessionIsAdmin (setAdminFlag users email 1) email = some true := by
        unfold sessionIsAdmin
        rw [hu]
        simp [hadm]
      refine ⟨hsess, by rw [hsess]; rfl, ?_⟩
      intro users2
      obtain ⟨u2, hu2, hadm2⟩ := find?_upsertUser_admin users2 email
      have hsess2 : sessionIsAdmin (upsertUser users2 email true) email = some true := by
        unfold sessionIsAdmin
        rw [hu2]
        simp [hadm2]
      exact ⟨hsess2, by rw [hsess2]; rfl⟩

/-- Witness for claim C10: an invited non-admin user logs in and comes out
with the admin flag set. -/
theorem claim10_witness :
    loginHandler [UserRow.mk "a@example.com" 0] "a@example.com" =
      some [UserRow.mk "a@example.com" 1] ∧
    (sessionIsAdmin [UserRow.mk "a@example.com" 1] "a@example.com" = some true ∧
    requireAdminR (sessionIsAdmin [UserRow.mk "a@example.com" 1] "a@example.com") =
      AuthResult.ok true ∧
    (∀ users2 : List UserRow,
      sessionIsAdmin (upsertUser users2 "a@example.com" true) "a@example.com" = some true ∧
      requireAdminR (sessionIsAdmin (upsertUser users2 "a@example.com" true) "a@example.com") =
        AuthResult.ok true)) :=
  ⟨by decide, claim10_all_users_admin [UserRow.mk "a@example.com" 0]
    [UserRow.mk "a@example.com" 1] "a@example.com" (by decide)⟩
